import Mathlib

/-!
Shallow embedding of `custom_component/overkiz_local/__init__.py` (the Overkiz
Home Assistant integration glue module) and verification of its specification.

Config-entry data (`entry.data`, a Python dict with string keys and values) is
modelled as an association list with first-match lookup, matching Python dict
semantics for the operations the module uses (`d[k]`, `d[k] = v`, `d.pop(k)`).
External collaborators (the pyoverkiz client, the coordinator, the host
framework's platform forward/unload calls) are modelled by an explicit
environment record describing the outcome of each external call.
-/

namespace OverkizLocal

/-! ### Constants

`const.py` is not part of the supplied sources; the key names, API-type values
and the two polling-interval constants are modelled from the spec: the config
keys are the fields the spec names (hub, server, API-type, host, token,
username, password), the API types are the two modes local/cloud, and the two
update intervals are distinct fixed constants (a default and a slower one). -/

/-- Modelled from the spec: the integration's domain key in `hass.data`. -/
def DOMAIN : String := "overkiz_local"

/-- Modelled from the spec: config key for the legacy v1 hub field. -/
def CONF_HUB : String := "hub"

/-- Modelled from the spec: config key for the v2 server field. -/
def CONF_SERVER : String := "server"

/-- Modelled from the spec: config key for the API-type flag. -/
def CONF_API_TYPE : String := "api_type"

/-- Host framework constant: config key for the gateway host. -/
def CONF_HOST : String := "host"

/-- Host framework constant: config key for the local bearer token. -/
def CONF_TOKEN : String := "token"

/-- Host framework constant: config key for the cloud username. -/
def CONF_USERNAME : String := "username"

/-- Host framework constant: config key for the cloud password. -/
def CONF_PASSWORD : String := "password"

/-- pyoverkiz `APIType.LOCAL` (a string enum value). -/
def APITypeLOCAL : String := "local"

/-- pyoverkiz `APIType.CLOUD` (a string enum value). -/
def APITypeCLOUD : String := "cloud"

/-- Modelled from the spec: the fixed default polling interval (seconds). -/
def UPDATE_INTERVAL : Nat := 30

/-- Modelled from the spec: the slower polling interval used when every device
has an assumed state (seconds); distinct from `UPDATE_INTERVAL`. -/
def UPDATE_INTERVAL_ALL_ASSUMED_STATE : Nat := 3600

/-! ### Python dicts as association lists

All the dict-shaped objects the module uses (`entry.data`, `hass.data[DOMAIN]`,
the `platforms` defaultdict, `SUPPORTED_SERVERS`, `OVERKIZ_DEVICE_TO_PLATFORM`)
are modelled as association lists with string keys in insertion order, with
Python dict semantics for lookup, assignment and pop. -/

section AList

variable {α : Type}

/-- `d.get(k)` / `d[k]` lookup: first entry whose key matches. -/
def alistGet : List (String × α) → String → Option α
  | [], _ => none
  | (k, v) :: d, key => if k = key then some v else alistGet d key

/-- `d[k] = v`: replace the value of an existing key in place, else append. -/
def alistSet : List (String × α) → String → α → List (String × α)
  | [], key, val => [(key, val)]
  | (k, v) :: d, key, val =>
    if k = key then (k, val) :: d else (k, v) :: alistSet d key val

/-- `d.pop(k)`: remove the entry with key `k`. -/
def alistPop : List (String × α) → String → List (String × α)
  | [], _ => []
  | (k, v) :: d, key =>
    if k = key then alistPop d key else (k, v) :: alistPop d key

theorem alistGet_alistSet (d : List (String × α)) (k : String) (v : α)
    (k' : String) :
    alistGet (alistSet d k v) k' = if k' = k then some v else alistGet d k' := by
  induction d with
  | nil =>
    by_cases h : k' = k
    · simp [alistSet, alistGet, h]
    · have h2 : ¬ k = k' := fun hh => h hh.symm
      simp [alistSet, alistGet, h, h2]
  | cons hd tl ih =>
    obtain ⟨a, b⟩ := hd
    by_cases hak : a = k
    · by_cases hk2 : a = k'
      · have h3 : k' = k := hk2.symm.trans hak
        simp [alistSet, alistGet, hak, hk2, h3]
      · have h3 : ¬ k' = k := fun hh => hk2 (hak.trans hh.symm)
        have h4 : ¬ k = k' := fun hh => hk2 (hak.trans hh)
        simp [alistSet, alistGet, hak, hk2, h3, h4]
    · by_cases hk2 : a = k'
      · have h3 : ¬ k' = k := fun hh => hak (hk2.trans hh)
        simp [alistSet, alistGet, hak, hk2, h3]
      · simp [alistSet, alistGet, hak, hk2, ih]

theorem alistGet_alistPop (d : List (String × α)) (k k' : String) :
    alistGet (alistPop d k) k' = if k' = k then none else alistGet d k' := by
  induction d with
  | nil => by_cases h : k' = k <;> simp [alistPop, alistGet, h]
  | cons hd tl ih =>
    obtain ⟨a, b⟩ := hd
    by_cases hak : a = k
    · by_cases hk2 : k' = k
      · subst hk2
        simp [alistPop, alistGet, hak, ih]
      · have h2 : ¬ a = k' := fun hh => hk2 (hh.symm.trans hak)
        have h4 : ¬ k = k' := fun hh => hk2 hh.symm
        simp [alistPop, alistGet, hak, hk2, h2, h4, ih]
    · by_cases hk2 : a = k'
      · have h2 : ¬ k' = k := fun hh => hak (hk2.trans hh)
        simp [alistPop, alistGet, hak, hk2, h2]
      · simp [alistPop, alistGet, hak, hk2, ih]

end AList

/-- A Python dict with string keys and string values (`entry.data`). -/
abbrev Dict := List (String × String)

/-! ### Config entries and migration (`async_migrate_entry`) -/

/-- A host-framework config entry: stable id, schema version, persisted data. -/
structure ConfigEntry where
  entryId : String
  version : Nat
  data : Dict
deriving DecidableEq

/-- Result of one `async_migrate_entry` call: the entry afterwards, whether
`async_update_entry` was called (an update persisted), and the return value. -/
structure MigrateResult where
  entry : ConfigEntry
  persisted : Bool
  ret : Bool
deriving DecidableEq

/-- `async_migrate_entry`: v1 → v2 renames `CONF_HUB` to `CONF_SERVER` and adds
`CONF_API_TYPE = cloud`, bumps the version and persists; other versions fall
through to `return True`. `none` models the `KeyError` Python would raise on
`entry.data[CONF_HUB]` when the hub key is absent. -/
def async_migrate_entry (entry : ConfigEntry) : Option MigrateResult :=
  if entry.version = 1 then
    match alistGet entry.data CONF_HUB with
    | none => none
    | some hub =>
      let d1 := alistSet entry.data CONF_SERVER hub
      let d2 := alistPop d1 CONF_HUB
      let d3 := alistSet d2 CONF_API_TYPE APITypeCLOUD
      some ⟨{ entry with version := 2, data := d3 }, true, true⟩
  else
    some ⟨entry, false, true⟩

/-! ### External collaborators: client, server descriptors, inventory -/

/-- An aiohttp client session; the module only configures `verify_ssl`. -/
structure Session where
  verifySsl : Bool
deriving DecidableEq

/-- A pyoverkiz server descriptor (the fields this module consumes). -/
structure Server where
  name : String
  endpoint : String
  manufacturer : String
  configurationUrl : Option String
deriving DecidableEq

/-- Modelled from pyoverkiz (external library): `generate_local_server(host)`
builds the local-gateway server descriptor as a function of the host. -/
def generate_local_server (host : String) : Server :=
  { name := "Somfy TaHoma (local)"
  , endpoint := "https://" ++ host ++ "/enduser-mobile-web/1/enduserAPI/"
  , manufacturer := "Somfy"
  , configurationUrl := some ("https://" ++ host) }

/-- A pyoverkiz `OverkizClient` as constructed by this module. -/
structure OverkizClient where
  username : String
  password : String
  token : Option String
  session : Session
  server : Server
deriving DecidableEq

/-- A vendor device descriptor (the fields this module reads). -/
structure Device where
  deviceUrl : String
  widget : String
  ui_class : String
deriving DecidableEq

/-- A vendor gateway descriptor; the optional names stand for
`sub_type.beautify_name` / `type.beautify_name` when the enums are present. -/
structure Gateway where
  id : String
  subTypeName : Option String
  typeName : Option String
  protocolVersion : String
deriving DecidableEq

/-- The `setup` object returned by `client.get_setup()`. -/
structure SetupInventory where
  devices : List Device
  rootPlace : String
  gateways : List Gateway
deriving DecidableEq

/-- A scenario returned by `client.get_scenarios()`. -/
structure Scenario where
  oid : String
  label : String
deriving DecidableEq

/-! ### Client construction (the two-branch factory inside `async_setup_entry`,
lines 80-108 of `__init__.py`) -/

/-- A static registry standing for `SUPPORTED_SERVERS` (external pyoverkiz
data), passed in as a parameter. -/
abbrev ServerRegistry := List (String × Server)

/-- The client-construction branch of `async_setup_entry`: local entries use an
empty username/password, the entry's token, a session with certificate
verification disabled, and a server generated from the host; all other entries
use the entry's username/password and the server looked up in
`SUPPORTED_SERVERS`. `Except.error k` models the `KeyError` raised on a
missing dict key `k`. -/
def buildClient (ss : ServerRegistry) (entry : ConfigEntry) :
    Except String OverkizClient :=
  match alistGet entry.data CONF_API_TYPE with
  | none => .error CONF_API_TYPE
  | some apiType =>
    if apiType = APITypeLOCAL then
      match alistGet entry.data CONF_HOST with
      | none => .error CONF_HOST
      | some host =>
        match alistGet entry.data CONF_TOKEN with
        | none => .error CONF_TOKEN
        | some token =>
          .ok { username := ""
              , password := ""
              , token := some token
              , session := { verifySsl := false }
              , server := generate_local_server host }
    else
      match alistGet entry.data CONF_USERNAME with
      | none => .error CONF_USERNAME
      | some username =>
        match alistGet entry.data CONF_PASSWORD with
        | none => .error CONF_PASSWORD
        | some password =>
          match alistGet entry.data CONF_SERVER with
          | none => .error CONF_SERVER
          | some serverKey =>
            match alistGet ss serverKey with
            | none => .error serverKey
            | some server =>
              .ok { username := username
                  , password := password
                  , token := none
                  , session := { verifySsl := true }
                  , server := server }

/-! ### Device-to-platform classification (lines 162-175 of `__init__.py`) -/

/-- A stand-in for `OVERKIZ_DEVICE_TO_PLATFORM` (defined in the missing
`const.py`): a finite map from widget / UI-class identifiers to platform
names, passed in as a parameter. -/
abbrev PlatformMap := List (String × String)

/-- `OVERKIZ_DEVICE_TO_PLATFORM.get(device.widget) or
OVERKIZ_DEVICE_TO_PLATFORM.get(device.ui_class)`: the widget lookup wins when
it hits, else the UI-class lookup is used. -/
def deviceTarget (m : PlatformMap) (d : Device) : Option String :=
  match alistGet m d.widget with
  | some p => some p
  | none => alistGet m d.ui_class

/-- The `platforms` defaultdict: platform name to device list, in insertion
order. -/
abbrev PlatformBuckets := List (String × List Device)

/-- Bucket lookup; a missing platform key is the defaultdict's empty list. -/
def bucketsGet (b : PlatformBuckets) (q : String) : List Device :=
  (alistGet b q).getD []

/-- `platforms[q].append(d)` on a defaultdict(list): a missing key is first
materialised as the empty list, then the device is appended. -/
def bucketsAppend (b : PlatformBuckets) (q : String) (d : Device) :
    PlatformBuckets :=
  alistSet b q (bucketsGet b q ++ [d])

/-- The classification loop: each device with a target platform is appended to
that platform's bucket; devices with no target are skipped. -/
def classifyDevices (m : PlatformMap) (ds : List Device) : PlatformBuckets :=
  ds.foldl
    (fun acc d =>
      match deviceTarget m d with
      | some p => bucketsAppend acc p d
      | none => acc)
    []

/-! ### Exceptions and the setup environment -/

/-- The exception classes distinguished by the `try/except` chain of
`async_setup_entry`, plus `other` for any exception none of the clauses
catch. -/
inductive Exc where
  | badCredentials
  | notSuchToken
  | tooManyRequests
  | timeoutError
  | clientError
  | clientConnectorError
  | serverDisconnected
  | maintenance
  | other (tag : Nat)
deriving DecidableEq

/-- Outcome of one `async_setup_entry` call: normal return, one of the two
host-framework failures it raises itself, an uncaught exception propagating,
or a `KeyError` from a dict lookup. -/
inductive SetupOutcome where
  | ok (ret : Bool)
  | configEntryAuthFailed (msg : String)
  | configEntryNotReady (msg : String)
  | raised (e : Exc)
  | keyError (k : String)
deriving DecidableEq

/-- The `except` chain for `login` / the gathered inventory fetch (lines
119-131): bad credentials and missing token become `ConfigEntryAuthFailed`,
the rate-limit, network and maintenance classes become `ConfigEntryNotReady`,
anything else propagates uncaught. -/
def mapLoginExc (e : Exc) : SetupOutcome :=
  match e with
  | .badCredentials => .configEntryAuthFailed "Invalid authentication"
  | .notSuchToken => .configEntryAuthFailed "Invalid authentication"
  | .tooManyRequests => .configEntryNotReady "Too many requests, try again later"
  | .timeoutError => .configEntryNotReady "Failed to connect"
  | .clientError => .configEntryNotReady "Failed to connect"
  | .clientConnectorError => .configEntryNotReady "Failed to connect"
  | .serverDisconnected => .configEntryNotReady "Failed to connect"
  | .maintenance => .configEntryNotReady "Server is down for maintenance"
  | .other t => .raised (.other t)

/-- Outcomes of the external calls one `async_setup_entry` run performs, in
program order: `login()`, the gathered `get_setup()`/`get_scenarios()` pair
(`gatherExc` is the first exception either raises, if any), the coordinator's
first refresh (its `data` values and `is_stateless` flag afterwards), gateway
registration and the platform forward. -/
structure SetupEnv where
  loginExc : Option Exc
  gatherExc : Option Exc
  inventory : SetupInventory
  scenarios : List Scenario
  firstRefreshExc : Option Exc
  refreshedData : List Device
  is_stateless : Bool
  gatewayRegExc : Option Exc
  forwardExc : Option Exc
deriving DecidableEq

/-! ### The coordinator, the per-entry bundle, and `hass` state -/

/-- The `OverkizDataUpdateCoordinator` as visible to this module: its
construction arguments plus the `data` / `is_stateless` attributes the spec
lists as its public contract (its refresh internals are out of scope and are
supplied by `SetupEnv`). -/
structure OverkizDataUpdateCoordinator where
  name : String
  client : OverkizClient
  devices : List Device
  places : String
  updateInterval : Nat
  configEntryId : String
  data : List Device
  is_stateless : Bool
deriving DecidableEq

/-- `HomeAssistantOverkizData`, the per-entry bundle stored in
`hass.data[DOMAIN]`. -/
structure HomeAssistantOverkizData where
  coordinator : OverkizDataUpdateCoordinator
  platforms : PlatformBuckets
  scenarios : List Scenario
deriving DecidableEq

/-- A device-registry record created by `async_get_or_create` for a gateway. -/
structure DeviceRegEntry where
  configEntryId : String
  identifiers : String × String
  model : Option String
  manufacturer : String
  name : String
  swVersion : String
  configurationUrl : Option String
deriving DecidableEq

/-- The slice of `hass` this module touches: `hass.data[DOMAIN]` (absent until
the first `setdefault`) and the device registry. -/
structure HassState where
  domainData : Option (List (String × HomeAssistantOverkizData))
  deviceRegistry : List DeviceRegEntry
deriving DecidableEq

/-- `hass.data[DOMAIN].get(entryId)`: the stored bundle for an entry, if any. -/
def bundleFor (st : HassState) (entryId : String) :
    Option HomeAssistantOverkizData :=
  match st.domainData with
  | none => none
  | some m => alistGet m entryId

/-- `hass.data.setdefault(DOMAIN, {})[entry.entry_id] = bundle`. -/
def storeBundle (st : HassState) (entryId : String)
    (b : HomeAssistantOverkizData) : HassState :=
  let m := match st.domainData with
    | some m => m
    | none => []
  { st with domainData := some (alistSet m entryId b) }

/-- The device-registry record built for one gateway (lines 182-190): model
from the beautified sub-type when present, display name from the beautified
type falling back to the raw id, manufacturer and configuration URL from the
client's server descriptor. -/
def registerGateway (entryId : String) (client : OverkizClient) (g : Gateway) :
    DeviceRegEntry :=
  { configEntryId := entryId
  , identifiers := (DOMAIN, g.id)
  , model := g.subTypeName
  , manufacturer := client.server.manufacturer
  , name := match g.typeName with
    | some t => t
    | none => g.id
  , swVersion := g.protocolVersion
  , configurationUrl := client.server.configurationUrl }

/-! ### `async_setup_entry` (lines 77-194 of `__init__.py`) -/

/-- `async_setup_entry`: build the client, log in and fetch the inventory
(mapping the exception taxonomy), construct and prime the coordinator, slow
the polling interval when every device has an assumed state, classify devices
into platform buckets, store the per-entry bundle, register gateways, forward
to the platforms. In the source the empty `platforms` dict is stored first
and then populated through the same (aliased) object before any later step
can fail; storing the populated buckets is observationally the same. Returns
the resulting `hass` state and the call's outcome. -/
def async_setup_entry (ss : ServerRegistry) (mapping : PlatformMap)
    (env : SetupEnv) (st : HassState) (entry : ConfigEntry) :
    HassState × SetupOutcome :=
  match buildClient ss entry with
  | .error k => (st, .keyError k)
  | .ok client =>
    match env.loginExc with
    | some e => (st, mapLoginExc e)
    | none =>
      match env.gatherExc with
      | some e => (st, mapLoginExc e)
      | none =>
        let coordinator0 : OverkizDataUpdateCoordinator :=
          { name := "device events"
          , client := client
          , devices := env.inventory.devices
          , places := env.inventory.rootPlace
          , updateInterval := UPDATE_INTERVAL
          , configEntryId := entry.entryId
          , data := []
          , is_stateless := false }
        match env.firstRefreshExc with
        | some e => (st, .raised e)
        | none =>
          let coordinator1 :=
            { coordinator0 with
                data := env.refreshedData
              , is_stateless := env.is_stateless }
          let coordinator2 :=
            if coordinator1.is_stateless then
              { coordinator1 with
                  updateInterval := UPDATE_INTERVAL_ALL_ASSUMED_STATE }
            else coordinator1
          let platforms := classifyDevices mapping coordinator2.data
          let st1 := storeBundle st entry.entryId
            { coordinator := coordinator2
            , platforms := platforms
            , scenarios := env.scenarios }
          match env.gatewayRegExc with
          | some e => (st1, .raised e)
          | none =>
            let st2 := { st1 with deviceRegistry :=
              st1.deviceRegistry ++
                env.inventory.gateways.map (registerGateway entry.entryId client) }
            match env.forwardExc with
            | some e => (st2, .raised e)
            | none => (st2, .ok true)

/-! ### `async_unload_entry` (lines 197-203 of `__init__.py`) -/

/-- `async_unload_entry`: ask the host framework to unload the platforms
(`unload_ok` is that call's result, an environment input); only on success pop
the entry's bundle from `hass.data[DOMAIN]`. Returns the new state and
`some unload_ok`, or `none` for the `KeyError` Python would raise when popping
a missing key. -/
def async_unload_entry (unload_ok : Bool) (st : HassState)
    (entry : ConfigEntry) : HassState × Option Bool :=
  if unload_ok then
    match st.domainData with
    | none => (st, none)
    | some m =>
      if (alistGet m entry.entryId).isSome then
        ({ st with domainData := some (alistPop m entry.entryId) }, some true)
      else
        (st, none)
  else
    (st, some false)

/-! ### Helper lemmas -/

theorem bucketsGet_bucketsAppend (b : PlatformBuckets) (p : String)
    (d : Device) (q : String) :
    bucketsGet (bucketsAppend b p d) q =
      if q = p then bucketsGet b q ++ [d] else bucketsGet b q := by
  by_cases h : q = p
  · subst h
    simp [bucketsAppend, bucketsGet, alistGet_alistSet]
  · simp [bucketsAppend, bucketsGet, alistGet_alistSet, h]

theorem bucketsGet_classify_aux (m : PlatformMap) (ds : List Device)
    (acc : PlatformBuckets) (q : String) :
    bucketsGet
      (ds.foldl
        (fun acc d =>
          match deviceTarget m d with
          | some p => bucketsAppend acc p d
          | none => acc)
        acc) q
      = bucketsGet acc q ++ ds.filter (fun d => deviceTarget m d = some q) := by
  induction ds generalizing acc with
  | nil => simp
  | cons d ds ih =>
    simp only [List.foldl_cons, List.filter_cons]
    cases hd : deviceTarget m d with
    | some p =>
      rw [ih, bucketsGet_bucketsAppend]
      by_cases h : q = p
      · subst h
        simp [hd]
      · have h2 : ¬ p = q := fun hh => h hh.symm
        simp [hd, h, h2]
    | none =>
      rw [ih]
      simp [hd]

theorem bucketsGet_classifyDevices (m : PlatformMap) (ds : List Device)
    (q : String) :
    bucketsGet (classifyDevices m ds) q
      = ds.filter (fun d => deviceTarget m d = some q) := by
  have h := bucketsGet_classify_aux m ds [] q
  simpa [classifyDevices, bucketsGet, alistGet] using h

theorem mem_bucketsGet_classifyDevices (m : PlatformMap) (ds : List Device)
    (d : Device) (q : String) :
    d ∈ bucketsGet (classifyDevices m ds) q ↔
      d ∈ ds ∧ deviceTarget m d = some q := by
  rw [bucketsGet_classifyDevices]
  simp [List.mem_filter]

theorem bundleFor_storeBundle_self (st : HassState) (entryId : String)
    (b : HomeAssistantOverkizData) :
    bundleFor (storeBundle st entryId b) entryId = some b := by
  unfold bundleFor storeBundle
  cases st.domainData <;> simp [alistGet_alistSet]

theorem bundleFor_storeBundle_domain (st : HassState) (entryId : String)
    (b : HomeAssistantOverkizData) (reg : List DeviceRegEntry) :
    bundleFor ⟨(storeBundle st entryId b).domainData, reg⟩ entryId = some b := by
  unfold bundleFor storeBundle
  cases st.domainData <;> simp [alistGet_alistSet]

theorem migrate_result_version_ne_one (e : ConfigEntry) (r : MigrateResult)
    (h : async_migrate_entry e = some r) : r.entry.version ≠ 1 := by
  unfold async_migrate_entry at h
  split at h
  · split at h
    · cases h
    · obtain rfl := Option.some.inj h
      simp
  · obtain rfl := Option.some.inj h
    simpa using by assumption

/-! ### Claim theorems: migration -/

/-- C3: for a persisted entry at schema version 1, `async_migrate_entry`
yields a version-2 entry whose server field equals the old hub value, whose
hub field is absent, whose API-type field is `"cloud"`, whose other fields
(and entry id) are unchanged; the update is persisted and the call returns
`True`. -/
theorem async_migrate_entry_v1_shape (e : ConfigEntry) (hub : String)
    (h1 : e.version = 1) (h2 : alistGet e.data CONF_HUB = some hub) :
    ∃ r, async_migrate_entry e = some r ∧
      r.entry.version = 2 ∧
      r.entry.entryId = e.entryId ∧
      alistGet r.entry.data CONF_SERVER = some hub ∧
      alistGet r.entry.data CONF_HUB = none ∧
      alistGet r.entry.data CONF_API_TYPE = some APITypeCLOUD ∧
      (∀ k, k ≠ CONF_HUB → k ≠ CONF_SERVER → k ≠ CONF_API_TYPE →
        alistGet r.entry.data k = alistGet e.data k) ∧
      r.persisted = true ∧ r.ret = true := by
  refine ⟨⟨{ e with
      version := 2,
      data := alistSet (alistPop (alistSet e.data CONF_SERVER hub) CONF_HUB)
        CONF_API_TYPE APITypeCLOUD }, true, true⟩,
    ?_, rfl, rfl, ?_, ?_, ?_, ?_, rfl, rfl⟩
  · unfold async_migrate_entry
    rw [if_pos h1, h2]
  · simp [alistGet_alistSet, alistGet_alistPop, CONF_SERVER, CONF_HUB,
      CONF_API_TYPE]
  · simp [alistGet_alistSet, alistGet_alistPop, CONF_SERVER, CONF_HUB,
      CONF_API_TYPE]
  · simp [alistGet_alistSet, alistGet_alistPop, CONF_SERVER, CONF_HUB,
      CONF_API_TYPE]
  · intro k hk1 hk2 hk3
    simp [alistGet_alistSet, alistGet_alistPop, hk1, hk2, hk3]

/-- C4: `async_migrate_entry` is a no-op on every entry whose version is not
1 (entry unchanged, nothing persisted, returns `True`), and running it on the
entry any successful call produced is again such a no-op, so migrate composed
with migrate equals migrate. -/
theorem async_migrate_entry_noop_and_idempotent (e : ConfigEntry) :
    (e.version ≠ 1 → async_migrate_entry e = some ⟨e, false, true⟩) ∧
    (∀ r, async_migrate_entry e = some r →
      async_migrate_entry r.entry = some ⟨r.entry, false, true⟩) := by
  constructor
  · intro h
    simp [async_migrate_entry, h]
  · intro r hr
    have hv := migrate_result_version_ne_one e r hr
    simp [async_migrate_entry, hv]

/-! ### Claim theorems: teardown -/

/-- C2: when the entry's bundle is stored, `async_unload_entry` returns
exactly the platform-unload boolean, and the bundle is removed from
`hass.data[DOMAIN]` precisely when that boolean is true; on failure it is
still retrievable unchanged. -/
theorem async_unload_entry_removes_iff_ok (ok : Bool) (st : HassState)
    (e : ConfigEntry) (b : HomeAssistantOverkizData)
    (hb : bundleFor st e.entryId = some b) :
    (async_unload_entry ok st e).2 = some ok ∧
    bundleFor (async_unload_entry ok st e).1 e.entryId
      = (if ok then none else some b) := by
  cases ok with
  | false => simp [async_unload_entry, hb]
  | true =>
    unfold bundleFor at hb
    cases hst : st.domainData with
    | none => rw [hst] at hb; cases hb
    | some m =>
      rw [hst] at hb
      simp only at hb
      simp [async_unload_entry, hst, hb, bundleFor, alistGet_alistPop]

/-- C10: `async_unload_entry` only ever touches its own entry's key: the
bundle stored under any other entry id is unchanged, whether the platform
unload succeeds or fails. -/
theorem async_unload_entry_frame (ok : Bool) (st : HassState)
    (e : ConfigEntry) (other : String) (h : other ≠ e.entryId) :
    bundleFor (async_unload_entry ok st e).1 other = bundleFor st other := by
  cases ok with
  | false => rfl
  | true =>
    cases hst : st.domainData with
    | none => simp [async_unload_entry, hst]
    | some m =>
      by_cases hm : (alistGet m e.entryId).isSome
      · simp [async_unload_entry, hst, hm, bundleFor, alistGet_alistPop, h]
      · simp [async_unload_entry, hst, hm, bundleFor]

/-! ### Claim theorems: client construction and the setup error taxonomy -/

/-- C5: for an entry whose API-type flag is local, client construction never
reads the username or password fields — two entries that agree on every other
field produce the same client — and the session it creates has certificate
verification disabled (and the client gets empty cloud credentials). -/
theorem local_client_ignores_credentials (ss : ServerRegistry)
    (e1 e2 : ConfigEntry)
    (h1 : alistGet e1.data CONF_API_TYPE = some APITypeLOCAL)
    (hsame : ∀ k, k ≠ CONF_USERNAME → k ≠ CONF_PASSWORD →
      alistGet e2.data k = alistGet e1.data k) :
    buildClient ss e2 = buildClient ss e1 ∧
    ∀ c, buildClient ss e1 = .ok c →
      c.session.verifySsl = false ∧ c.username = "" ∧ c.password = "" := by
  have h2 : alistGet e2.data CONF_API_TYPE = some APITypeLOCAL := by
    rw [hsame CONF_API_TYPE (by decide) (by decide)]
    exact h1
  have hh : alistGet e2.data CONF_HOST = alistGet e1.data CONF_HOST :=
    hsame CONF_HOST (by decide) (by decide)
  have ht : alistGet e2.data CONF_TOKEN = alistGet e1.data CONF_TOKEN :=
    hsame CONF_TOKEN (by decide) (by decide)
  constructor
  · unfold buildClient
    rw [h1, h2, hh, ht]
    simp [APITypeLOCAL]
  · intro c hc
    unfold buildClient at hc
    rw [h1] at hc
    simp only at hc
    rw [if_pos trivial] at hc
    cases hhost : alistGet e1.data CONF_HOST with
    | none => rw [hhost] at hc; cases hc
    | some host =>
      rw [hhost] at hc
      cases htok : alistGet e1.data CONF_TOKEN with
      | none => rw [htok] at hc; cases hc
      | some token =>
        rw [htok] at hc
        obtain rfl := Except.ok.inj hc
        exact ⟨rfl, rfl, rfl⟩

/-- C6: a bad-credentials or no-such-token error from login or the gathered
inventory fetch makes `async_setup_entry` raise `ConfigEntryAuthFailed` and
leaves `hass` untouched (in particular no coordinator or bundle is created). -/
theorem auth_error_aborts_setup (ss : ServerRegistry) (mapping : PlatformMap)
    (env : SetupEnv) (st : HassState) (e : ConfigEntry) (client : OverkizClient)
    (exc : Exc) (hc : buildClient ss e = .ok client)
    (hexc : exc = Exc.badCredentials ∨ exc = Exc.notSuchToken)
    (hl : env.loginExc = some exc ∨
      (env.loginExc = none ∧ env.gatherExc = some exc)) :
    async_setup_entry ss mapping env st e
      = (st, .configEntryAuthFailed "Invalid authentication") := by
  unfold async_setup_entry
  rw [hc]
  rcases hl with h | ⟨ha, hb⟩
  · rw [h]
    rcases hexc with rfl | rfl <;> rfl
  · rw [ha, hb]
    rcases hexc with rfl | rfl <;> rfl

/-- C7: a too-many-requests, timeout, client, connector, server-disconnect or
maintenance error from login or the gathered inventory fetch makes
`async_setup_entry` raise `ConfigEntryNotReady` and leaves `hass` untouched
(in particular no coordinator or bundle is created). -/
theorem transient_error_aborts_setup (ss : ServerRegistry)
    (mapping : PlatformMap) (env : SetupEnv) (st : HassState) (e : ConfigEntry)
    (client : OverkizClient) (exc : Exc) (hc : buildClient ss e = .ok client)
    (hexc : exc ∈ [Exc.tooManyRequests, Exc.timeoutError, Exc.clientError,
      Exc.clientConnectorError, Exc.serverDisconnected, Exc.maintenance])
    (hl : env.loginExc = some exc ∨
      (env.loginExc = none ∧ env.gatherExc = some exc)) :
    ∃ msg, async_setup_entry ss mapping env st e
      = (st, .configEntryNotReady msg) := by
  unfold async_setup_entry
  rw [hc]
  simp only [List.mem_cons, List.not_mem_nil, or_false] at hexc
  rcases hl with h | ⟨ha, hb⟩
  · rw [h]
    rcases hexc with rfl | rfl | rfl | rfl | rfl | rfl <;> exact ⟨_, rfl⟩
  · rw [ha, hb]
    rcases hexc with rfl | rfl | rfl | rfl | rfl | rfl <;> exact ⟨_, rfl⟩

/-! ### Claim theorems: coordinator priming, classification, partial state -/

/-- C8: when setup reaches the coordinator's first refresh and it succeeds,
the stored coordinator's polling interval is the slow constant
`UPDATE_INTERVAL_ALL_ASSUMED_STATE` exactly when every fetched device reports
an assumed state (`is_stateless`), and the default `UPDATE_INTERVAL` it was
constructed with otherwise. -/
theorem coordinator_interval_after_first_refresh (ss : ServerRegistry)
    (mapping : PlatformMap) (env : SetupEnv) (st : HassState) (e : ConfigEntry)
    (client : OverkizClient) (hc : buildClient ss e = .ok client)
    (hl : env.loginExc = none) (hg : env.gatherExc = none)
    (hr : env.firstRefreshExc = none) :
    ∃ b, bundleFor (async_setup_entry ss mapping env st e).1 e.entryId
        = some b ∧
      b.coordinator.is_stateless = env.is_stateless ∧
      b.coordinator.updateInterval =
        (if env.is_stateless then UPDATE_INTERVAL_ALL_ASSUMED_STATE
         else UPDATE_INTERVAL) := by
  unfold async_setup_entry
  rw [hc, hl, hg, hr]
  cases hgw : env.gatewayRegExc <;> cases hf : env.forwardExc <;>
    by_cases hs : env.is_stateless <;>
      simp [bundleFor_storeBundle_self, bundleFor_storeBundle_domain, hs]

/-- C9: a device held by the coordinator lands in the platform bucket of its
widget's mapping entry whenever the widget lookup hits — even when the
UI-class maps to a different platform; when the widget lookup misses and the
UI-class lookup hits, it lands in the UI-class's bucket (and no other); a
device matching neither identifier lands in no bucket, and the classification
never changes the outcome of `async_setup_entry` (the outcome is independent
of the mapping). -/
theorem device_platform_classification (m : PlatformMap) (ds : List Device)
    (d : Device) (hd : d ∈ ds) :
    (∀ p, alistGet m d.widget = some p →
      ∀ q, (d ∈ bucketsGet (classifyDevices m ds) q ↔ q = p)) ∧
    (alistGet m d.widget = none → ∀ p, alistGet m d.ui_class = some p →
      ∀ q, (d ∈ bucketsGet (classifyDevices m ds) q ↔ q = p)) ∧
    (alistGet m d.widget = none → alistGet m d.ui_class = none →
      ∀ q, d ∉ bucketsGet (classifyDevices m ds) q) ∧
    (∀ ss env st e m2, (async_setup_entry ss m env st e).2
      = (async_setup_entry ss m2 env st e).2) := by
  refine ⟨?_, ?_, ?_, ?_⟩
  · intro p hw q
    rw [mem_bucketsGet_classifyDevices]
    simp [deviceTarget, hw, hd, eq_comm]
  · intro hw p hu q
    rw [mem_bucketsGet_classifyDevices]
    simp [deviceTarget, hw, hu, hd, eq_comm]
  · intro hw hu q
    rw [mem_bucketsGet_classifyDevices]
    simp [deviceTarget, hw, hu]
  · intro ss env st e m2
    unfold async_setup_entry
    cases buildClient ss e <;>
      cases env.loginExc <;> cases env.gatherExc <;>
        cases env.firstRefreshExc <;> cases env.gatewayRegExc <;>
          cases env.forwardExc <;> rfl

/-- C1 (amended): a failure at client construction, login, the inventory
fetch, or the coordinator's first refresh aborts `async_setup_entry` with
`hass` untouched (no bundle stored); but the per-entry bundle is stored
before gateway registration and platform forwarding, so a failure at either
of those later steps aborts the call with the entry's bundle still stored in
`hass.data[DOMAIN]`. -/
theorem setup_failure_partial_state (ss : ServerRegistry)
    (mapping : PlatformMap) (env : SetupEnv) (st : HassState)
    (e : ConfigEntry) :
    (((∃ k, buildClient ss e = .error k) ∨ env.loginExc ≠ none ∨
        env.gatherExc ≠ none ∨ env.firstRefreshExc ≠ none) →
      (async_setup_entry ss mapping env st e).1 = st) ∧
    (∀ client, buildClient ss e = .ok client → env.loginExc = none →
      env.gatherExc = none → env.firstRefreshExc = none →
      (env.gatewayRegExc ≠ none ∨ env.forwardExc ≠ none) →
      (async_setup_entry ss mapping env st e).2 ≠ .ok true ∧
      (bundleFor (async_setup_entry ss mapping env st e).1 e.entryId).isSome
        = true) := by
  constructor
  · intro h
    unfold async_setup_entry
    rcases h with ⟨k, hk⟩ | h | h | h
    · rw [hk]
    · cases hb : buildClient ss e with
      | error k => rfl
      | ok c =>
        cases hl : env.loginExc with
        | some ex => rfl
        | none => exact absurd hl h
    · cases hb : buildClient ss e with
      | error k => rfl
      | ok c =>
        cases hl : env.loginExc with
        | some ex => rfl
        | none =>
          cases hg : env.gatherExc with
          | some ex => rfl
          | none => exact absurd hg h
    · cases hb : buildClient ss e with
      | error k => rfl
      | ok c =>
        cases hl : env.loginExc with
        | some ex => rfl
        | none =>
          cases hg : env.gatherExc with
          | some ex => rfl
          | none =>
            cases hr : env.firstRefreshExc with
            | some ex => rfl
            | none => exact absurd hr h
  · intro client hc hl hg hr hfail
    unfold async_setup_entry
    rw [hc, hl, hg, hr]
    cases hgw : env.gatewayRegExc with
    | some ex =>
      exact ⟨by simp, by simp [bundleFor_storeBundle_self]⟩
    | none =>
      cases hf : env.forwardExc with
      | some ex =>
        exact ⟨by simp, by simp [bundleFor_storeBundle_self, bundleFor,
          storeBundle, alistGet_alistSet]⟩
      | none =>
        rcases hfail with h | h
        · exact absurd hgw h
        · exact absurd hf h

/-! ### Concrete instances -/

/-- A concrete version-2 local-mode config entry. -/
def sampleLocalEntry : ConfigEntry :=
  ⟨"entry-1", 2,
    [(CONF_API_TYPE, APITypeLOCAL), (CONF_HOST, "gateway-1234.local"),
      (CONF_TOKEN, "tok")]⟩

/-- The client `buildClient` constructs for `sampleLocalEntry`. -/
def sampleLocalClient : OverkizClient :=
  { username := ""
  , password := ""
  , token := some "tok"
  , session := { verifySsl := false }
  , server := generate_local_server "gateway-1234.local" }

/-- An environment in which every external call succeeds with an empty
inventory. -/
def sampleEnvOk : SetupEnv :=
  { loginExc := none
  , gatherExc := none
  , inventory := ⟨[], "root", []⟩
  , scenarios := []
  , firstRefreshExc := none
  , refreshedData := []
  , is_stateless := false
  , gatewayRegExc := none
  , forwardExc := none }

/-- Same environment, but the platform forward fails. -/
def sampleEnvForwardFail : SetupEnv :=
  { sampleEnvOk with forwardExc := some (.other 0) }

/-- Same environment, but every device reports an assumed state. -/
def sampleEnvStateless : SetupEnv :=
  { sampleEnvOk with is_stateless := true }

/-- A `hass` with nothing stored yet. -/
def emptyState : HassState := ⟨none, []⟩

/-- A coordinator as stored after a successful setup of `sampleLocalEntry`. -/
def sampleCoordinator : OverkizDataUpdateCoordinator :=
  { name := "device events"
  , client := sampleLocalClient
  , devices := []
  , places := "root"
  , updateInterval := UPDATE_INTERVAL
  , configEntryId := "entry-1"
  , data := []
  , is_stateless := false }

/-- A stored per-entry bundle. -/
def sampleBundle : HomeAssistantOverkizData := ⟨sampleCoordinator, [], []⟩

/-- A `hass` holding `sampleBundle` under `"entry-1"`. -/
def sampleLoadedState : HassState := ⟨some [("entry-1", sampleBundle)], []⟩

/-- A concrete version-1 cloud entry. -/
def sampleV1Entry : ConfigEntry :=
  ⟨"entry-1", 1,
    [(CONF_USERNAME, "u"), (CONF_PASSWORD, "p"), (CONF_HUB, "somfy_europe")]⟩

/-- What `async_migrate_entry` produces from `sampleV1Entry`. -/
def sampleMigrated : MigrateResult :=
  ⟨⟨"entry-1", 2,
    [(CONF_USERNAME, "u"), (CONF_PASSWORD, "p"),
      (CONF_SERVER, "somfy_europe"), (CONF_API_TYPE, APITypeCLOUD)]⟩,
    true, true⟩

/-- C1 counterexample: a concrete run in which every step up to and including
gateway registration succeeds and platform forwarding fails: the call aborts
(does not return `True`) yet the entry's bundle remains stored in
`hass.data[DOMAIN]`, refuting "no partial runtime state is retained" for
forwarding failures. -/
theorem setup_forward_failure_retains_bundle :
    (async_setup_entry [] [] sampleEnvForwardFail emptyState
        sampleLocalEntry).2 ≠ SetupOutcome.ok true ∧
    (bundleFor (async_setup_entry [] [] sampleEnvForwardFail emptyState
        sampleLocalEntry).1 sampleLocalEntry.entryId).isSome = true := by
  decide

/-! ### Witnesses -/

/-- Witness for C1 (amended): both halves at concrete inputs — a login
failure leaves `hass` untouched; a forwarding failure aborts with the bundle
still stored. -/
theorem setup_failure_partial_state_witness :
    ((async_setup_entry [] [] { sampleEnvOk with loginExc := some .clientError }
        emptyState sampleLocalEntry).1 = emptyState) ∧
    ((async_setup_entry [] [] sampleEnvForwardFail emptyState
        sampleLocalEntry).2 ≠ SetupOutcome.ok true ∧
      (bundleFor (async_setup_entry [] [] sampleEnvForwardFail emptyState
        sampleLocalEntry).1 sampleLocalEntry.entryId).isSome = true) :=
  ⟨(setup_failure_partial_state [] []
      { sampleEnvOk with loginExc := some .clientError } emptyState
      sampleLocalEntry).1 (Or.inr (Or.inl (by decide))),
    (setup_failure_partial_state [] [] sampleEnvForwardFail emptyState
      sampleLocalEntry).2 sampleLocalClient rfl rfl rfl rfl
      (Or.inr (by decide))⟩

/-- Witness for C2 at a concrete loaded state and a successful unload. -/
theorem async_unload_entry_removes_iff_ok_witness :
    (async_unload_entry true sampleLoadedState sampleLocalEntry).2
        = some true ∧
    bundleFor (async_unload_entry true sampleLoadedState sampleLocalEntry).1
        sampleLocalEntry.entryId
      = (if true then none else some sampleBundle) :=
  async_unload_entry_removes_iff_ok true sampleLoadedState sampleLocalEntry
    sampleBundle rfl

/-- Witness for C10: unloading `"entry-1"` leaves `"entry-2"`'s slot alone. -/
theorem async_unload_entry_frame_witness :
    bundleFor (async_unload_entry true sampleLoadedState sampleLocalEntry).1
      "entry-2" = bundleFor sampleLoadedState "entry-2" :=
  async_unload_entry_frame true sampleLoadedState sampleLocalEntry "entry-2"
    (by decide)

/-- Witness for C3 at a concrete version-1 entry. -/
theorem async_migrate_entry_v1_shape_witness :
    ∃ r, async_migrate_entry sampleV1Entry = some r ∧
      r.entry.version = 2 ∧
      r.entry.entryId = sampleV1Entry.entryId ∧
      alistGet r.entry.data CONF_SERVER = some "somfy_europe" ∧
      alistGet r.entry.data CONF_HUB = none ∧
      alistGet r.entry.data CONF_API_TYPE = some APITypeCLOUD ∧
      (∀ k, k ≠ CONF_HUB → k ≠ CONF_SERVER → k ≠ CONF_API_TYPE →
        alistGet r.entry.data k = alistGet sampleV1Entry.data k) ∧
      r.persisted = true ∧ r.ret = true :=
  async_migrate_entry_v1_shape sampleV1Entry "somfy_europe" rfl (by decide)

/-- Witness for C4: a version-2 entry is untouched, and re-migrating the
result of migrating `sampleV1Entry` is a persisted-nothing no-op. -/
theorem async_migrate_entry_noop_and_idempotent_witness :
    (async_migrate_entry ⟨"entry-2", 2, [(CONF_SERVER, "somfy_europe")]⟩
      = some ⟨⟨"entry-2", 2, [(CONF_SERVER, "somfy_europe")]⟩, false, true⟩) ∧
    (async_migrate_entry sampleMigrated.entry
      = some ⟨sampleMigrated.entry, false, true⟩) :=
  ⟨(async_migrate_entry_noop_and_idempotent
      ⟨"entry-2", 2, [(CONF_SERVER, "somfy_europe")]⟩).1 (by decide),
    (async_migrate_entry_noop_and_idempotent sampleV1Entry).2 sampleMigrated
      (by decide)⟩

/-- Witness for C5: two concrete local entries differing only in username and
password. -/
theorem local_client_ignores_credentials_witness :
    buildClient []
        ⟨"entry-1", 2,
          [(CONF_API_TYPE, APITypeLOCAL), (CONF_HOST, "gateway-1234.local"),
            (CONF_TOKEN, "tok"), (CONF_USERNAME, "bob"),
            (CONF_PASSWORD, "pw2")]⟩
      = buildClient []
        ⟨"entry-1", 2,
          [(CONF_API_TYPE, APITypeLOCAL), (CONF_HOST, "gateway-1234.local"),
            (CONF_TOKEN, "tok"), (CONF_USERNAME, "alice"),
            (CONF_PASSWORD, "pw1")]⟩ ∧
    ∀ c, buildClient []
        ⟨"entry-1", 2,
          [(CONF_API_TYPE, APITypeLOCAL), (CONF_HOST, "gateway-1234.local"),
            (CONF_TOKEN, "tok"), (CONF_USERNAME, "alice"),
            (CONF_PASSWORD, "pw1")]⟩ = .ok c →
      c.session.verifySsl = false ∧ c.username = "" ∧ c.password = "" :=
  local_client_ignores_credentials []
    ⟨"entry-1", 2,
      [(CONF_API_TYPE, APITypeLOCAL), (CONF_HOST, "gateway-1234.local"),
        (CONF_TOKEN, "tok"), (CONF_USERNAME, "alice"),
        (CONF_PASSWORD, "pw1")]⟩
    ⟨"entry-1", 2,
      [(CONF_API_TYPE, APITypeLOCAL), (CONF_HOST, "gateway-1234.local"),
        (CONF_TOKEN, "tok"), (CONF_USERNAME, "bob"),
        (CONF_PASSWORD, "pw2")]⟩
    (by decide)
    (by
      intro k h1 h2
      have h1' : ¬ ("username" : String) = k := fun hh => h1 hh.symm
      have h2' : ¬ ("password" : String) = k := fun hh => h2 hh.symm
      simp [alistGet, CONF_API_TYPE, CONF_HOST, CONF_TOKEN, CONF_USERNAME,
        CONF_PASSWORD, h1', h2'])

/-- Witness for C6: a bad-credentials login failure at a concrete entry. -/
theorem auth_error_aborts_setup_witness :
    async_setup_entry [] []
        { sampleEnvOk with loginExc := some .badCredentials } emptyState
        sampleLocalEntry
      = (emptyState, .configEntryAuthFailed "Invalid authentication") :=
  auth_error_aborts_setup [] []
    { sampleEnvOk with loginExc := some .badCredentials } emptyState
    sampleLocalEntry sampleLocalClient Exc.badCredentials rfl (Or.inl rfl)
    (Or.inl rfl)

/-- Witness for C7: a rate-limit failure during the inventory fetch at a
concrete entry. -/
theorem transient_error_aborts_setup_witness :
    ∃ msg, async_setup_entry [] []
        { sampleEnvOk with gatherExc := some .tooManyRequests } emptyState
        sampleLocalEntry
      = (emptyState, .configEntryNotReady msg) :=
  transient_error_aborts_setup [] []
    { sampleEnvOk with gatherExc := some .tooManyRequests } emptyState
    sampleLocalEntry sampleLocalClient Exc.tooManyRequests rfl (by decide)
    (Or.inr ⟨rfl, rfl⟩)

/-- Witness for C8: an all-assumed-state inventory at a concrete entry. -/
theorem coordinator_interval_after_first_refresh_witness :
    ∃ b, bundleFor (async_setup_entry [] [] sampleEnvStateless emptyState
        sampleLocalEntry).1 sampleLocalEntry.entryId = some b ∧
      b.coordinator.is_stateless = sampleEnvStateless.is_stateless ∧
      b.coordinator.updateInterval =
        (if sampleEnvStateless.is_stateless then
          UPDATE_INTERVAL_ALL_ASSUMED_STATE
         else UPDATE_INTERVAL) :=
  coordinator_interval_after_first_refresh [] [] sampleEnvStateless emptyState
    sampleLocalEntry sampleLocalClient rfl rfl rfl rfl

/-- Witness for C9: a concrete device whose widget and UI-class both match
the mapping lands in the widget's bucket, and one whose widget misses but
whose UI-class matches lands in the UI-class's bucket. -/
theorem device_platform_classification_witness :
    (⟨"io://dev1", "StatefulWidget", "LightUi"⟩ ∈
        bucketsGet
          (classifyDevices [("StatefulWidget", "switch"), ("LightUi", "light")]
            [⟨"io://dev1", "StatefulWidget", "LightUi"⟩]) "switch"
      ↔ "switch" = "switch") ∧
    (⟨"io://dev2", "UnknownWidget", "LightUi"⟩ ∈
        bucketsGet
          (classifyDevices [("StatefulWidget", "switch"), ("LightUi", "light")]
            [⟨"io://dev2", "UnknownWidget", "LightUi"⟩]) "light"
      ↔ "light" = "light") :=
  ⟨(device_platform_classification
      [("StatefulWidget", "switch"), ("LightUi", "light")]
      [⟨"io://dev1", "StatefulWidget", "LightUi"⟩]
      ⟨"io://dev1", "StatefulWidget", "LightUi"⟩
      (by decide)).1 "switch" (by decide) "switch",
    (device_platform_classification
      [("StatefulWidget", "switch"), ("LightUi", "light")]
      [⟨"io://dev2", "UnknownWidget", "LightUi"⟩]
      ⟨"io://dev2", "UnknownWidget", "LightUi"⟩
      (by decide)).2.1 (by decide) "light" (by decide) "light"⟩

end OverkizLocal
